import Mathlib

/-!
Shallow embedding of the iced-libp2p-sample repository: the peer-to-peer
coordination actor in src/p2p.rs, the UI event handlers in src/handlers.rs
and the widget logic in src/widgets.rs. External libp2p state (the Kademlia
behaviour and its record store) is modelled by explicit state passing;
calls into the library whose results the source inspects are parameters
(operation records), so the theorems quantify over every library outcome.
Rust panics (expect / unwrap / usize underflow in debug builds) are
modelled as `none`.
-/

namespace IcedLibp2p

/-- Opaque unique identifier of a network participant (libp2p PeerId),
modelled as a string. -/
abbrev PeerId := String

/-- Multi-protocol network address (libp2p Multiaddr), modelled as a
string. -/
abbrev Multiaddr := String

/-- Opaque byte string identifying a DHT entry (kad::RecordKey); bytes are
naturals below 256. -/
abbrev RecordKey := List Nat

/-- A DHT record, as in libp2p kad::Record. -/
structure Record where
  key : RecordKey
  value : List Nat
  publisher : Option PeerId
  expires : Option Nat
deriving DecidableEq, Repr

/-- Rust Record::new sets publisher and expires to None. -/
def Record.new (key : RecordKey) (value : List Nat) : Record :=
  { key := key, value := value, publisher := none, expires := none }

/-- A DHT provider record, as in libp2p kad::ProviderRecord. -/
structure ProviderRecord where
  key : RecordKey
  provider : PeerId
  expires : Option Nat
  addresses : List Multiaddr
deriving DecidableEq, Repr

/-- Commands from the consumer to the actor (enum P2pCommand in
src/p2p.rs). -/
inductive P2pCommand
  | GetRecord (key : String)
  | GetProviders (key : String)
  | PutRecord (key : String) (value : List Nat)
  | PutProvider (key : String)
deriving DecidableEq, Repr

/-- Results of queries this actor issued (enum P2pOutboundEvent in
src/p2p.rs). -/
inductive P2pOutboundEvent
  | RecordFound (key : RecordKey) (value : List Nat)
  | ProvidersFound (key : RecordKey) (providers : List PeerId)
  | RecordPut (key : RecordKey)
  | ProviderPut (key : RecordKey)
deriving DecidableEq, Repr

/-- Network-originated writes accepted into the local store (enum
P2pInboundEvent in src/p2p.rs). -/
inductive P2pInboundEvent
  | ProviderAdded (key : RecordKey)
  | RecordStored (source : PeerId) (key : RecordKey) (value : List Nat)
deriving DecidableEq, Repr

/-- Events from the actor to the consumer (enum P2pEvent in src/p2p.rs). -/
inductive P2pEvent
  | Bootstrapped (address : Multiaddr)
  | PeerDiscovered (peer : PeerId) (address : Multiaddr)
  | PeerExpired (peer : PeerId) (address : Multiaddr)
  | Outbound (event : P2pOutboundEvent)
  | Inbound (event : P2pInboundEvent)
  | Error (msg : String)
deriving DecidableEq, Repr

/-! ## Consumer state and handle_p2p_event (src/handlers.rs) -/

/-- UI state (struct State in src/app.rs). peer_count is a Rust usize;
it is modelled as a Nat here, and the subtraction in handle_p2p_event is
modelled explicitly where it can underflow. -/
structure State where
  event_log : List P2pEvent
  peer_count : Nat
  current_key : String
  current_value : String
deriving DecidableEq, Repr

/-- Rust State::default(): empty log, zero count, empty fields. -/
def State.initial : State :=
  { event_log := [], peer_count := 0, current_key := "", current_value := "" }

/-- handle_p2p_event from src/handlers.rs: pushes the event into the log,
increments peer_count on PeerDiscovered, decrements it on PeerExpired.
The decrement is on a usize: at peer_count = 0 it underflows, which panics
in a debug build (and wraps to 2^64 - 1 in release); the panic is modelled
as `none`. -/
def handle_p2p_event (state : State) (event : P2pEvent) : Option State :=
  let state := { state with event_log := state.event_log ++ [event] }
  match event with
  | .PeerDiscovered _ _ => some { state with peer_count := state.peer_count + 1 }
  | .PeerExpired _ _ =>
      if state.peer_count = 0 then none
      else some { state with peer_count := state.peer_count - 1 }
  | _ => some state

/-- Processing a sequence of events through handle_p2p_event; `none` as
soon as any step panics. -/
def processEvents (state : State) : List P2pEvent → Option State
  | [] => some state
  | e :: rest =>
      match handle_p2p_event state e with
      | none => none
      | some s => processEvents s rest

/-! ## input_section (src/widgets.rs) -/

/-- Messages of the iced application (enum Message in src/app.rs). -/
inductive Message
  | P2pEventMsg (event : P2pEvent)
  | KeyTextChanged (data : String)
  | ValueTextChanged (data : String)
  | PutRecord (key : String) (value : String)
  | GetRecord (key : String)
  | FocusNext
  | ServerStarted
  | Ignore
deriving DecidableEq, Repr

/-- input_section from src/widgets.rs, reduced to the messages the two
buttons can produce: the first component is the on_press message of the
Put button, the second that of the Get button; `none` means the button has
no on_press handler and produces no message. The conditional chain mirrors
the if / else if in the source. -/
def input_section (current_key current_value : String) :
    Option Message × Option Message :=
  if !current_key.isEmpty && !current_value.isEmpty then
    (some (.PutRecord current_key current_value), none)
  else if !current_key.isEmpty && current_value.isEmpty then
    (none, some (.GetRecord current_key))
  else
    (none, none)

/-! ## UTF-8 and the Display implementation of P2pEvent (src/p2p.rs) -/

/-- A UTF-8 continuation byte: 0x80 to 0xBF. -/
def isCont (b : Nat) : Bool := 0x80 ≤ b && b < 0xC0

/-- Decoding of a byte list as UTF-8, following the validation rules of
Rust String::from_utf8: rejects stray continuation bytes, overlong
encodings (leads 0xC0/0xC1, and the restricted second-byte ranges after
0xE0 and 0xF0), surrogate code points (0xED followed by 0xA0..0xBF) and
code points above 0x10FFFF (leads above 0xF4, and 0xF4 followed by
0x90..0xBF); `none` models the Err case of from_utf8. -/
def utf8Decode : List Nat → Option (List Char)
  | [] => some []
  | b1 :: rest =>
    if b1 < 0x80 then
      (utf8Decode rest).map fun cs => Char.ofNat b1 :: cs
    else if b1 < 0xC2 then none
    else if b1 < 0xE0 then
      match rest with
      | b2 :: rest2 =>
        if isCont b2 then
          (utf8Decode rest2).map fun cs =>
            Char.ofNat ((b1 - 0xC0) * 0x40 + (b2 - 0x80)) :: cs
        else none
      | [] => none
    else if b1 < 0xF0 then
      match rest with
      | b2 :: b3 :: rest3 =>
        if (if b1 = 0xE0 then decide (0xA0 ≤ b2) && decide (b2 < 0xC0)
            else if b1 = 0xED then decide (0x80 ≤ b2) && decide (b2 < 0xA0)
            else isCont b2) && isCont b3 then
          (utf8Decode rest3).map fun cs =>
            Char.ofNat ((b1 - 0xE0) * 0x1000 + (b2 - 0x80) * 0x40 + (b3 - 0x80)) :: cs
        else none
      | _ => none
    else if b1 < 0xF5 then
      match rest with
      | b2 :: b3 :: b4 :: rest4 =>
        if (if b1 = 0xF0 then decide (0x90 ≤ b2) && decide (b2 < 0xC0)
            else if b1 = 0xF4 then decide (0x80 ≤ b2) && decide (b2 < 0x90)
            else isCont b2) && isCont b3 && isCont b4 then
          (utf8Decode rest4).map fun cs =>
            Char.ofNat ((b1 - 0xF0) * 0x40000 + (b2 - 0x80) * 0x1000
              + (b3 - 0x80) * 0x40 + (b4 - 0x80)) :: cs
        else none
      | _ => none
    else none

/-- Rust String::from_utf8 on a byte vector, with the Err case as
`none`. -/
def string_from_utf8 (bytes : List Nat) : Option String :=
  (utf8Decode bytes).map fun cs => String.mk cs

/-- The bytes decode as UTF-8. -/
def utf8Valid (bytes : List Nat) : Bool := (utf8Decode bytes).isSome

/-- Rust Debug formatting of a kad::RecordKey ({key:?} in the Display
impl). -/
def fmtKeyDebug (key : RecordKey) : String := "Key(" ++ toString key ++ ")"

/-- Rust Debug formatting of a Vec of PeerIds ({peer_ids:?}). -/
def fmtPeerList (peer_ids : List PeerId) : String := toString peer_ids

/-- The Display implementation of P2pEvent in src/p2p.rs. The RecordFound
and RecordStored arms call String::from_utf8(value).unwrap(); the unwrap
panic on non-UTF-8 bytes is modelled as `none`, every other arm always
formats. -/
def displayP2pEvent : P2pEvent → Option String
  | .Bootstrapped address => some ("Listen on " ++ address)
  | .PeerDiscovered peer address =>
      some ("Discovered peer " ++ peer ++ " at " ++ address)
  | .PeerExpired peer address =>
      some ("Expired peer " ++ peer ++ " at " ++ address)
  | .Error msg => some ("Something went wrong: " ++ msg)
  | .Outbound (.RecordFound key value) =>
      (string_from_utf8 value).map fun s =>
        "Outbound: Found record value for " ++ fmtKeyDebug key ++ ": " ++ s
  | .Outbound (.ProvidersFound key peer_ids) =>
      some ("Outbound: Found providers for " ++ fmtKeyDebug key ++ ": "
        ++ fmtPeerList peer_ids)
  | .Outbound (.RecordPut key) =>
      some ("Outbound: Successfully put record with " ++ fmtKeyDebug key)
  | .Outbound (.ProviderPut key) =>
      some ("Outbound: Successfully started providing record with "
        ++ fmtKeyDebug key)
  | .Inbound (.ProviderAdded key) =>
      some ("Inbound: Received new provider for " ++ fmtKeyDebug key)
  | .Inbound (.RecordStored source_id key value) =>
      (string_from_utf8 value).map fun s =>
        "Inbound: Stored new record from " ++ source_id ++ " with "
          ++ fmtKeyDebug key ++ " and value " ++ s

/-- event_log from src/widgets.rs formats every event in the log with the
Display impl; a panic while formatting any one line aborts the whole
rendering, so the result is `none` as soon as one line fails. -/
def event_log : List P2pEvent → Option (List String)
  | [] => some []
  | e :: rest =>
      match displayP2pEvent e with
      | none => none
      | some line => (event_log rest).map fun lines => line :: lines

/-! ## Outbound query completion (handle_outbound_query in src/p2p.rs) -/

/-- Opaque query error of the kad library (GetRecordError,
GetProvidersError, PutRecordError, AddProviderError), modelled by its
Debug rendering. -/
abbrev KadQueryError := String

/-- Rust format with {:?} on a query error: the Debug rendering, which is
the identity on the opaque error model. -/
def debugFmt (err : KadQueryError) : String := err

/-- kad::PeerRecord: a record together with the peer it came from. -/
structure PeerRecord where
  record : Record
  peer : Option PeerId
deriving DecidableEq, Repr

/-- kad::GetRecordOk. -/
inductive GetRecordOk
  | FoundRecord (peer_record : PeerRecord)
  | FinishedWithNoAdditionalRecord (cache_candidates : List PeerId)
deriving DecidableEq, Repr

/-- kad::GetProvidersOk. -/
inductive GetProvidersOk
  | FoundProviders (key : RecordKey) (providers : List PeerId)
  | FinishedWithNoAdditionalRecord (closest_peers : List PeerId)
deriving DecidableEq, Repr

/-- kad::PutRecordOk. -/
structure PutRecordOk where
  key : RecordKey
deriving DecidableEq, Repr

/-- kad::AddProviderOk. -/
structure AddProviderOk where
  key : RecordKey
deriving DecidableEq, Repr

/-- kad::QueryResult: outcome of one outbound query, delivered through
kad::Event::OutboundQueryProgressed. -/
inductive QueryResult
  | Bootstrap (result : Except KadQueryError Unit)
  | GetClosestPeers (result : Except KadQueryError Unit)
  | GetProviders (result : Except KadQueryError GetProvidersOk)
  | StartProviding (result : Except KadQueryError AddProviderOk)
  | RepublishProvider (result : Except KadQueryError AddProviderOk)
  | GetRecord (result : Except KadQueryError GetRecordOk)
  | PutRecord (result : Except KadQueryError PutRecordOk)
  | RepublishRecord (result : Except KadQueryError PutRecordOk)
deriving Repr

/-- handle_outbound_query from src/p2p.rs, as the list of events it sends
on the event channel. The function receives no swarm handle, so it can
neither mutate routing state nor re-issue a query; its only effect is the
events. The info logging in the success arms calls
str::from_utf8(...).unwrap() on key (and value, for FoundRecord) before
sending; those unwrap panics are modelled as `none`. Bootstrap,
GetClosestPeers, the republish variants and
GetProvidersOk::FinishedWithNoAdditionalRecord fall into the catch-all
arm and produce nothing. -/
def handle_outbound_query : QueryResult → Option (List P2pEvent)
  | .GetProviders (.ok (.FoundProviders key providers)) =>
      if providers.isEmpty || utf8Valid key then
        some [.Outbound (.ProvidersFound key providers)]
      else none
  | .GetProviders (.error err) => some [.Error (debugFmt err)]
  | .GetRecord (.ok (.FoundRecord pr)) =>
      if utf8Valid pr.record.key && utf8Valid pr.record.value then
        some [.Outbound (.RecordFound pr.record.key pr.record.value)]
      else none
  | .GetRecord (.ok (.FinishedWithNoAdditionalRecord _)) => some []
  | .GetRecord (.error err) => some [.Error (debugFmt err)]
  | .PutRecord (.ok ok) =>
      if utf8Valid ok.key then some [.Outbound (.RecordPut ok.key)] else none
  | .PutRecord (.error err) => some [.Error (debugFmt err)]
  | .StartProviding (.ok ok) =>
      if utf8Valid ok.key then some [.Outbound (.ProviderPut ok.key)] else none
  | .StartProviding (.error err) => some [.Error (debugFmt err)]
  | _ => some []

/-! ## Record store and inbound requests (handle_inbound_request in
src/p2p.rs) -/

/-- Operations of the local record store (libp2p MemoryStore behind the
RecordStore trait), as the source calls them: each mutating call either
returns the updated store or a store error. The store itself is external
library state, so it is a type parameter and the theorems hold for every
store behaviour. -/
structure RecordStoreOps (σ : Type) where
  add_provider : σ → ProviderRecord → Except String σ
  put : σ → Record → Except String σ

/-- kad::InboundRequest: a request pushed by a remote peer. -/
inductive InboundRequest
  | FindNode (num_closer_peers : Nat)
  | GetProvider (num_closer_peers : Nat) (num_provider_peers : Nat)
  | AddProvider (record : Option ProviderRecord)
  | GetRecord (num_closer_peers : Nat) (present_locally : Bool)
  | PutRecord (source : PeerId) (connection : Nat) (record : Option Record)
deriving DecidableEq, Repr

/-- The request carries an attached record (the two arms
handle_inbound_request acts on). -/
def hasAttachedRecord : InboundRequest → Bool
  | .AddProvider (some _) => true
  | .PutRecord _ _ (some _) => true
  | _ => false

/-- handle_inbound_request from src/p2p.rs: an AddProvider or PutRecord
request with an attached record is written into the local store first —
the .expect on the store call turns a rejection into a process-aborting
panic, modelled as `none` — and on acceptance exactly one Inbound event
is sent. Every other request shape falls to the catch-all arm: no store
call, no event. -/
def handle_inbound_request {σ : Type} (ops : RecordStoreOps σ)
    (request : InboundRequest) (store : σ) : Option (σ × List P2pEvent) :=
  match request with
  | .AddProvider (some record) =>
      match ops.add_provider store record with
      | .error _ => none
      | .ok store1 => some (store1, [.Inbound (.ProviderAdded record.key)])
  | .PutRecord source _ (some record) =>
      match ops.put store record with
      | .error _ => none
      | .ok store1 =>
          some (store1, [.Inbound (.RecordStored source record.key record.value)])
  | _ => some (store, [])

/-! ## Command dispatch (handle_command in src/p2p.rs) -/

/-- kad::Quorum. -/
inductive Quorum
  | One
  | Majority
  | All
  | N (n : Nat)
deriving DecidableEq, Repr

/-- UTF-8 encoding of one code point, for RecordKey::new on a string. -/
def utf8EncodeCodepoint (n : Nat) : List Nat :=
  if n < 0x80 then [n]
  else if n < 0x800 then [0xC0 + n / 0x40, 0x80 + n % 0x40]
  else if n < 0x10000 then
    [0xE0 + n / 0x1000, 0x80 + n / 0x40 % 0x40, 0x80 + n % 0x40]
  else
    [0xF0 + n / 0x40000, 0x80 + n / 0x1000 % 0x40,
      0x80 + n / 0x40 % 0x40, 0x80 + n % 0x40]

/-- Rust kad::RecordKey::new(&key) on a String: the UTF-8 bytes of the
string. -/
def RecordKey.new (s : String) : RecordKey :=
  (s.data.map fun c => utf8EncodeCodepoint c.toNat).flatten

/-- Operations of the Kademlia behaviour as handle_command calls them:
get_record and get_providers always enqueue a query, put_record and
start_providing return Result and can fail at construction / local-store
time. Library state is the type parameter. -/
structure KademliaOps (κ : Type) where
  get_record : κ → RecordKey → κ
  get_providers : κ → RecordKey → κ
  put_record : κ → Record → Quorum → Except String κ
  start_providing : κ → RecordKey → Except String κ

/-- handle_command from src/p2p.rs: pure dispatch to the Kademlia
behaviour. PutRecord builds Record::new(key, value) and puts it with
Quorum::One; the .expect on put_record (and on start_providing) makes a
returned error a process-aborting panic, modelled as `none`. No arm sends
anything on the event channel, so the event list is always empty. -/
def handle_command {κ : Type} (ops : KademliaOps κ) (cmd : P2pCommand)
    (kademlia : κ) : Option (κ × List P2pEvent) :=
  match cmd with
  | .GetRecord key => some (ops.get_record kademlia (RecordKey.new key), [])
  | .GetProviders key => some (ops.get_providers kademlia (RecordKey.new key), [])
  | .PutRecord key value =>
      let k := RecordKey.new key
      let record := Record.new k value
      match ops.put_record kademlia record .One with
      | .error _ => none
      | .ok kademlia1 => some (kademlia1, [])
  | .PutProvider key =>
      match ops.start_providing kademlia (RecordKey.new key) with
      | .error _ => none
      | .ok kademlia1 => some (kademlia1, [])

/-! ## Swarm events and mDNS batches (handle_swarm_event in src/p2p.rs) -/

/-- The routing-relevant part of the swarm the handler mutates: the
Kademlia routing table (peer, address) entries and the local record
store. -/
structure SwarmModel (σ : Type) where
  routing : List (PeerId × Multiaddr)
  store : σ

/-- kad add_address: registers the address for the peer in the routing
table (a set: re-adding an existing entry changes nothing). -/
def addAddress (routing : List (PeerId × Multiaddr)) (peer : PeerId)
    (address : Multiaddr) : List (PeerId × Multiaddr) :=
  if (peer, address) ∈ routing then routing else routing ++ [(peer, address)]

/-- kad remove_address: drops the address of the peer from the routing
table. -/
def removeAddress (routing : List (PeerId × Multiaddr)) (peer : PeerId)
    (address : Multiaddr) : List (PeerId × Multiaddr) :=
  routing.filter fun pa => decide (pa ≠ (peer, address))

/-- mdns::Event: a batch of discovered or expired (peer, address)
pairs. -/
inductive MdnsEvent
  | Discovered (pairs : List (PeerId × Multiaddr))
  | Expired (pairs : List (PeerId × Multiaddr))
deriving DecidableEq, Repr

/-- kad::Event, reduced to the variants the source matches; everything
else is the catch-all. -/
inductive KadBehaviourEvent
  | OutboundQueryProgressed (result : QueryResult)
  | InboundRequestReceived (request : InboundRequest)
  | OtherKadEvent
deriving Repr

/-- SwarmEvent, reduced to the arms of the source match; every unmatched
swarm event is OtherSwarmEvent. -/
inductive SwarmEvent
  | NewListenAddr (address : Multiaddr)
  | Mdns (event : MdnsEvent)
  | Kademlia (event : KadBehaviourEvent)
  | OtherSwarmEvent
deriving Repr

/-- The for loop of the Discovered arm: for each (peer, address) pair in
batch order, first add_address on the Kademlia behaviour, then send one
PeerDiscovered event. -/
def processDiscovered {σ : Type} :
    List (PeerId × Multiaddr) → SwarmModel σ → SwarmModel σ × List P2pEvent
  | [], s => (s, [])
  | (peer, address) :: rest, s =>
      let s1 : SwarmModel σ := { s with routing := addAddress s.routing peer address }
      let r := processDiscovered rest s1
      (r.1, .PeerDiscovered peer address :: r.2)

/-- The for loop of the Expired arm: for each (peer, address) pair in
batch order, first remove_address on the Kademlia behaviour, then send
one PeerExpired event. -/
def processExpired {σ : Type} :
    List (PeerId × Multiaddr) → SwarmModel σ → SwarmModel σ × List P2pEvent
  | [], s => (s, [])
  | (peer, address) :: rest, s =>
      let s1 : SwarmModel σ := { s with routing := removeAddress s.routing peer address }
      let r := processExpired rest s1
      (r.1, .PeerExpired peer address :: r.2)

/-- handle_swarm_event from src/p2p.rs: the swarm mutation and the events
sent, with `none` for a panic inside the handler. -/
def handle_swarm_event {σ : Type} (ops : RecordStoreOps σ) :
    SwarmEvent → SwarmModel σ → Option (SwarmModel σ × List P2pEvent)
  | .NewListenAddr address, s => some (s, [.Bootstrapped address])
  | .Mdns (.Discovered pairs), s => some (processDiscovered pairs s)
  | .Mdns (.Expired pairs), s => some (processExpired pairs s)
  | .Kademlia (.OutboundQueryProgressed result), s =>
      (handle_outbound_query result).map fun evs => (s, evs)
  | .Kademlia (.InboundRequestReceived request), s =>
      (handle_inbound_request ops request s.store).map fun r =>
        ({ s with store := r.1 }, r.2)
  | .Kademlia .OtherKadEvent, s => some (s, [])
  | .OtherSwarmEvent, s => some (s, [])

/-- Full characterization of the Discovered loop: the final routing table
folds add_address over the batch in order, the store is untouched, and
the events are exactly the PeerDiscovered of the batch in batch order. -/
lemma processDiscovered_spec {σ : Type} (pairs : List (PeerId × Multiaddr)) :
    ∀ s : SwarmModel σ,
      processDiscovered pairs s =
        ({ s with routing := pairs.foldl (fun r pa => addAddress r pa.1 pa.2) s.routing },
          pairs.map fun pa => P2pEvent.PeerDiscovered pa.1 pa.2) := by
  induction pairs with
  | nil => intro s; rfl
  | cons pa rest ih =>
      intro s
      cases pa with
      | mk peer address => simp [processDiscovered, ih]

/-- Full characterization of the Expired loop: the final routing table
folds remove_address over the batch in order, the store is untouched, and
the events are exactly the PeerExpired of the batch in batch order. -/
lemma processExpired_spec {σ : Type} (pairs : List (PeerId × Multiaddr)) :
    ∀ s : SwarmModel σ,
      processExpired pairs s =
        ({ s with routing := pairs.foldl (fun r pa => removeAddress r pa.1 pa.2) s.routing },
          pairs.map fun pa => P2pEvent.PeerExpired pa.1 pa.2) := by
  induction pairs with
  | nil => intro s; rfl
  | cons pa rest ih =>
      intro s
      cases pa with
      | mk peer address => simp [processExpired, ih]

/-! ## Theorems -/

/-- C1: handle_p2p_event decrements the usize peer counter on every
PeerExpired event with no check that a matching PeerDiscovered was counted
before: from the initial state (peer_count = 0), processing a single
PeerExpired event underflows the counter (a panic in debug builds, a wrap
to 2^64 - 1 in release), so the derived peer count does not stay
non-negative as the claim requires. -/
theorem c1_peer_count_underflows :
    processEvents State.initial [P2pEvent.PeerExpired "peerA" "/ip4/10.0.0.1/tcp/4001"] = none := by
  decide

/-- C10: the buttons of input_section gate command issuance on the field
contents: a PutRecord message arises only with both fields non-empty, a
GetRecord message only with a non-empty key and an empty value field, and
with an empty key neither button produces a message. -/
theorem c10_input_section_gating (k v : String) :
    (∀ k' v', (input_section k v).1 = some (.PutRecord k' v') →
        k ≠ "" ∧ v ≠ "" ∧ k' = k ∧ v' = v) ∧
    (∀ k', (input_section k v).2 = some (.GetRecord k') →
        k ≠ "" ∧ v = "" ∧ k' = k) ∧
    (k = "" → input_section k v = (none, none)) := by
  by_cases hk : k = ""
  · have hkb : k.isEmpty = true := (String.isEmpty_iff k).mpr hk
    refine ⟨fun k' v' h => ?_, fun k' h => ?_, fun _ => ?_⟩
    · simp [input_section, hkb] at h
    · simp [input_section, hkb] at h
    · simp [input_section, hkb]
  · have hkb : k.isEmpty = false := by
      cases h : k.isEmpty
      · rfl
      · exact absurd ((String.isEmpty_iff k).mp h) hk
    by_cases hv : v = ""
    · have hvb : v.isEmpty = true := (String.isEmpty_iff v).mpr hv
      refine ⟨fun k' v' h => ?_, fun k' h => ?_, fun hke => absurd hke hk⟩
      · simp [input_section, hkb, hvb] at h
      · simp [input_section, hkb, hvb] at h
        exact ⟨hk, hv, h.symm⟩
    · have hvb : v.isEmpty = false := by
        cases h : v.isEmpty
        · rfl
        · exact absurd ((String.isEmpty_iff v).mp h) hv
      refine ⟨fun k' v' h => ?_, fun k' h => ?_, fun hke => absurd hke hk⟩
      · simp [input_section, hkb, hvb] at h
        exact ⟨hk, hv, h.1.symm, h.2.symm⟩
      · simp [input_section, hkb, hvb] at h

/-- Witness for C10 at concrete field contents: with key "a" and value "b"
the Put button produces PutRecord "a" "b", and the theorem yields the
non-emptiness of both fields. -/
theorem c10_input_section_gating_witness :
    ((input_section "a" "b").1 = some (.PutRecord "a" "b")) ∧
    ("a" ≠ "" ∧ "b" ≠ "" ∧ "a" = "a" ∧ "b" = "b") := by
  refine ⟨by decide, (c10_input_section_gating "a" "b").1 "a" "b" (by decide)⟩

/-- C4: every failed outbound query result, for each of the four query
kinds the actor issues, makes handle_outbound_query emit exactly one
Error event carrying the Debug rendering of the failure — never an
Outbound event. The function has no swarm handle, so no query is
re-issued. -/
theorem c4_query_failure_single_error (err : KadQueryError) :
    handle_outbound_query (.GetRecord (.error err)) = some [.Error (debugFmt err)] ∧
    handle_outbound_query (.GetProviders (.error err)) = some [.Error (debugFmt err)] ∧
    handle_outbound_query (.PutRecord (.error err)) = some [.Error (debugFmt err)] ∧
    handle_outbound_query (.StartProviding (.error err)) = some [.Error (debugFmt err)] :=
  ⟨rfl, rfl, rfl, rfl⟩

/-- C7: a GetRecord query completing with the terminal
FinishedWithNoAdditionalRecord marker produces no event at all on the
event channel (the source only logs it at debug level). -/
theorem c7_finished_no_additional_record (cache_candidates : List PeerId) :
    handle_outbound_query
      (.GetRecord (.ok (.FinishedWithNoAdditionalRecord cache_candidates))) = some [] :=
  rfl

/-- C9: the Display impl of P2pEvent is partial over event payloads:
formatting Outbound(RecordFound(key, value)) or
Inbound(RecordStored(source, key, value)) unwraps String::from_utf8 on
value and panics whenever the bytes are not valid UTF-8 — and rendering
the event log aborts with it — while with valid UTF-8 bytes both arms
return the formatted string. -/
theorem c9_display_unwrap_panics (key : RecordKey) (value : List Nat) (source : PeerId) :
    (utf8Valid value = false →
      displayP2pEvent (.Outbound (.RecordFound key value)) = none ∧
      displayP2pEvent (.Inbound (.RecordStored source key value)) = none ∧
      event_log [.Outbound (.RecordFound key value)] = none) ∧
    (utf8Valid value = true →
      (displayP2pEvent (.Outbound (.RecordFound key value))).isSome = true ∧
      (displayP2pEvent (.Inbound (.RecordStored source key value))).isSome = true) := by
  constructor
  · intro h
    have hd : utf8Decode value = none := by
      simpa [utf8Valid, Option.isSome_iff_exists] using h
    refine ⟨?_, ?_, ?_⟩ <;>
      simp [displayP2pEvent, string_from_utf8, event_log, hd]
  · intro h
    obtain ⟨cs, hcs⟩ : ∃ cs, utf8Decode value = some cs := by
      simpa [utf8Valid, Option.isSome_iff_exists] using h
    exact ⟨by simp [displayP2pEvent, string_from_utf8, hcs],
      by simp [displayP2pEvent, string_from_utf8, hcs]⟩

/-- Witness for C9: the byte pair 0xC3 0x28 (a two-byte lead with an
invalid continuation) is not UTF-8 and makes RecordFound display
panic, while the bytes of "hi" are valid UTF-8 and display fine. -/
theorem c9_display_unwrap_panics_witness :
    (utf8Valid [0xC3, 0x28] = false ∧
      displayP2pEvent (.Outbound (.RecordFound [107] [0xC3, 0x28])) = none ∧
      displayP2pEvent (.Inbound (.RecordStored "peerB" [107] [0xC3, 0x28])) = none ∧
      event_log [.Outbound (.RecordFound [107] [0xC3, 0x28])] = none) ∧
    (utf8Valid [104, 105] = true ∧
      (displayP2pEvent (.Outbound (.RecordFound [107] [104, 105]))).isSome = true ∧
      (displayP2pEvent (.Inbound (.RecordStored "peerB" [107] [104, 105]))).isSome = true) := by
  have h1 : utf8Valid [0xC3, 0x28] = false := by decide
  have h2 : utf8Valid [104, 105] = true := by decide
  have w1 := (c9_display_unwrap_panics [107] [0xC3, 0x28] "peerB").1 h1
  have w2 := (c9_display_unwrap_panics [107] [104, 105] "peerB").2 h2
  exact ⟨⟨h1, w1.1, w1.2.1, w1.2.2⟩, ⟨h2, w2.1, w2.2⟩⟩

/-- C2: an inbound AddProvider or PutRecord request with an attached
record is written into the local store first; a store rejection is a
process-aborting panic (none), not a recoverable condition, and on
acceptance exactly one Inbound(ProviderAdded(key)) respectively
Inbound(RecordStored(source, key, value)) event is emitted. -/
theorem c2_inbound_write_fatal_or_event {σ : Type} (ops : RecordStoreOps σ)
    (store store1 : σ) (pr : ProviderRecord) (record : Record)
    (source : PeerId) (connection : Nat) (err : String) :
    (ops.add_provider store pr = .error err →
      handle_inbound_request ops (.AddProvider (some pr)) store = none) ∧
    (ops.add_provider store pr = .ok store1 →
      handle_inbound_request ops (.AddProvider (some pr)) store
        = some (store1, [.Inbound (.ProviderAdded pr.key)])) ∧
    (ops.put store record = .error err →
      handle_inbound_request ops (.PutRecord source connection (some record)) store
        = none) ∧
    (ops.put store record = .ok store1 →
      handle_inbound_request ops (.PutRecord source connection (some record)) store
        = some (store1, [.Inbound (.RecordStored source record.key record.value)])) := by
  refine ⟨fun h => ?_, fun h => ?_, fun h => ?_, fun h => ?_⟩ <;>
    simp [handle_inbound_request, h]

/-- Store operations of a two-slot toy store used by the witnesses: the
first write is accepted, a write to a store already holding one entry is
rejected. -/
def storeOpsW : RecordStoreOps Nat :=
  { add_provider := fun s _ => if s < 1 then .ok (s + 1) else .error "max provider records reached",
    put := fun s _ => if s < 1 then .ok (s + 1) else .error "max records reached" }

/-- Provider record used by the witnesses. -/
def provW : ProviderRecord :=
  { key := [107], provider := "peerC", expires := none, addresses := [] }

/-- Record used by the witnesses. -/
def recW : Record := Record.new [107] [118]

/-- Witness for C2 at a concrete store: the accepted write yields exactly
the one Inbound event, the rejected write aborts. -/
theorem c2_inbound_write_fatal_or_event_witness :
    (handle_inbound_request storeOpsW (.AddProvider (some provW)) 0
        = some (1, [.Inbound (.ProviderAdded provW.key)])) ∧
    (handle_inbound_request storeOpsW (.AddProvider (some provW)) 5 = none) ∧
    (handle_inbound_request storeOpsW (.PutRecord "peerB" 0 (some recW)) 0
        = some (1, [.Inbound (.RecordStored "peerB" recW.key recW.value)])) ∧
    (handle_inbound_request storeOpsW (.PutRecord "peerB" 0 (some recW)) 5 = none) :=
  ⟨(c2_inbound_write_fatal_or_event storeOpsW 0 1 provW recW "peerB" 0 "e").2.1 rfl,
    (c2_inbound_write_fatal_or_event storeOpsW 5 1 provW recW "peerB" 0
      "max provider records reached").1 rfl,
    (c2_inbound_write_fatal_or_event storeOpsW 0 1 provW recW "peerB" 0 "e").2.2.2 rfl,
    (c2_inbound_write_fatal_or_event storeOpsW 5 1 provW recW "peerB" 0
      "max records reached").2.2.1 rfl⟩

/-- C3: an inbound request without an attached record — AddProvider or
PutRecord carrying None, or any other request kind — produces no event at
all, no panic, and leaves the local store unchanged. -/
theorem c3_recordless_request_dropped {σ : Type} (ops : RecordStoreOps σ)
    (store : σ) (request : InboundRequest)
    (h : hasAttachedRecord request = false) :
    handle_inbound_request ops request store = some (store, []) := by
  cases request with
  | FindNode n => rfl
  | GetProvider a b => rfl
  | AddProvider r =>
      cases r with
      | none => rfl
      | some record => simp [hasAttachedRecord] at h
  | GetRecord a b => rfl
  | PutRecord source connection r =>
      cases r with
      | none => rfl
      | some record => simp [hasAttachedRecord] at h

/-- Witness for C3: a recordless PutRecord at the concrete toy store is
silently dropped. -/
theorem c3_recordless_request_dropped_witness :
    hasAttachedRecord (.PutRecord "peerB" 0 none) = false ∧
    handle_inbound_request storeOpsW (.PutRecord "peerB" 0 none) 0 = some (0, []) :=
  ⟨rfl, c3_recordless_request_dropped storeOpsW 0 (.PutRecord "peerB" 0 none) rfl⟩

/-- C5: an mDNS Discovered batch is processed pair by pair in batch
order; each address is registered in the Kademlia routing state before its
PeerDiscovered event, the store is untouched, and the emitted event list
equals the batch mapped to PeerDiscovered in batch order. -/
theorem c5_discovered_batch {σ : Type} (ops : RecordStoreOps σ)
    (pairs : List (PeerId × Multiaddr)) (s : SwarmModel σ) :
    handle_swarm_event ops (.Mdns (.Discovered pairs)) s
        = some (processDiscovered pairs s) ∧
    (processDiscovered pairs s).2
        = pairs.map (fun pa => P2pEvent.PeerDiscovered pa.1 pa.2) ∧
    (processDiscovered pairs s).1.routing
        = pairs.foldl (fun r pa => addAddress r pa.1 pa.2) s.routing ∧
    (processDiscovered pairs s).1.store = s.store := by
  refine ⟨rfl, ?_, ?_, ?_⟩ <;> simp [processDiscovered_spec]

/-- C6: an mDNS Expired batch removes each expired address from the
Kademlia routing state and emits one PeerExpired event per (peer,
address) pair — n expiring addresses of one peer give n events, not one
peer-level event — in batch order, with the store untouched. -/
theorem c6_expired_batch {σ : Type} (ops : RecordStoreOps σ)
    (pairs : List (PeerId × Multiaddr)) (s : SwarmModel σ) :
    handle_swarm_event ops (.Mdns (.Expired pairs)) s
        = some (processExpired pairs s) ∧
    (processExpired pairs s).2
        = pairs.map (fun pa => P2pEvent.PeerExpired pa.1 pa.2) ∧
    (processExpired pairs s).2.length = pairs.length ∧
    (processExpired pairs s).1.routing
        = pairs.foldl (fun r pa => removeAddress r pa.1 pa.2) s.routing ∧
    (processExpired pairs s).1.store = s.store := by
  refine ⟨rfl, ?_, ?_, ?_, ?_⟩ <;> simp [processExpired_spec]

/-- C8: a PutRecord(k, v) command makes handle_command construct
Record::new(k, v) and issue the put with Quorum::One; a failure of the
put call itself is a process-aborting panic (none), not an Error event,
and a successful dispatch emits no event either. -/
theorem c8_put_record_dispatch {κ : Type} (ops : KademliaOps κ)
    (kademlia kademlia1 : κ) (key : String) (value : List Nat) (err : String) :
    (ops.put_record kademlia (Record.new (RecordKey.new key) value) .One = .error err →
      handle_command ops (.PutRecord key value) kademlia = none) ∧
    (ops.put_record kademlia (Record.new (RecordKey.new key) value) .One = .ok kademlia1 →
      handle_command ops (.PutRecord key value) kademlia = some (kademlia1, [])) := by
  constructor <;> intro h <;> simp [handle_command, h]

/-- Kademlia operations of a toy behaviour used by the C8 witness: the
first put is accepted, a put on the state already holding one entry is
rejected. -/
def kadOpsW : KademliaOps Nat :=
  { get_record := fun k _ => k + 1,
    get_providers := fun k _ => k + 1,
    put_record := fun k _ _ => if k < 1 then .ok (k + 1) else .error "record too large",
    start_providing := fun k _ => if k < 1 then .ok (k + 1) else .error "key too large" }

/-- Witness for C8 at the toy behaviour: the accepted put dispatches with
no event, the rejected put aborts. -/
theorem c8_put_record_dispatch_witness :
    handle_command kadOpsW (.PutRecord "k" [118]) 0 = some (1, []) ∧
    handle_command kadOpsW (.PutRecord "k" [118]) 5 = none :=
  ⟨(c8_put_record_dispatch kadOpsW 0 1 "k" [118] "e").2 rfl,
    (c8_put_record_dispatch kadOpsW 5 1 "k" [118] "record too large").1 rfl⟩

end IcedLibp2p
